import Mathlib

/-!
Shallow embedding of the Uzbekistan AI recommendation engine
(`src/microservices/ml-ai/ai-recommendation-engine/src/index.py`).

Modelling conventions:
* Python floats are modelled as exact rationals (`ℚ`); all weight and price
  arithmetic in the source is plain `+`, `-`, `*` on small literals.
* Database result sets (the popularity query of `get_popular_recommendations`,
  the category query of `get_cultural_recommendations`, the product lookup of
  `apply_uzbekistan_filters`) are passed in as explicit lists, in the order the
  SQL `ORDER BY` delivers them.
* The cosine-similarity vectors produced by `sklearn.metrics.pairwise.
  cosine_similarity` are passed in as an explicit rational vector `sims`
  (one entry per model row); the ranking code that consumes such a vector
  (`np.argsort(...)[::-1]` plus slicing) is embedded exactly.  `np.argsort`
  is modelled as the stable ascending sort (numpy uses insertion sort on the
  small arrays appearing in every concrete input considered here).
* Optional/nullable DB text fields (`name`, `name_ru`) are modelled as
  strings, with the empty string playing the role of Python-falsy
  (`None`/`""`), matching the truthiness tests in the source.
-/

/-- Mirrors the `UserProfile` pydantic model (index.py lines 75–83). -/
structure UserProfile where
  user_id : String
  region : String
  language : String := "uz"
  age_group : Option String := none
  gender : Option String := none
  income_level : Option String := none
  interests : List String := []
  purchase_history : List String := []
deriving Repr, DecidableEq

/-- Mirrors the product row used by `apply_uzbekistan_filters` (products
joined with vendors; index.py lines 85–100 and 656–661). -/
structure Product where
  product_id : String
  name : String := ""
  name_ru : String := ""
  category : String := ""
  price : ℚ := 0
  vendor_region : String := ""
  vendor_rating : ℚ := 0
  is_local_product : Bool := false
  cultural_relevance : ℚ := 0
deriving Repr, DecidableEq

/-- A per-signal recommendation dict `{product_id, score, reason}` as built by
`get_collaborative_recommendations`, `get_content_recommendations`,
`get_cultural_recommendations` and `get_popular_recommendations`.  The
cultural signal additionally carries a `cultural_factor` explanation. -/
structure SignalRec where
  product_id : String
  score : ℚ
  reason : String
  cultural_factor : Option String := none
deriving Repr, DecidableEq

/-- The fused-candidate dict built by `combine_recommendations`
(index.py lines 593–634): a per-signal score mapping with the three possible
keys `collaborative`/`content`/`cultural` (a key is present only when that
signal produced the product), accumulated reasons, a combined `total_score`,
and the display fields `apply_uzbekistan_filters` adds (lines 683–690). -/
structure CombinedRec where
  product_id : String
  collab_score : Option ℚ := none
  content_score : Option ℚ := none
  cultural_score : Option ℚ := none
  reasons : List String := []
  total_score : ℚ := 0
  cultural_factor : Option String := none
  product_name : Option String := none
  product_name_ru : Option String := none
  price : Option ℚ := none
  vendor_region : Option String := none
  vendor_rating : Option ℚ := none
  category : Option String := none
deriving Repr, DecidableEq

/-- The `weights` dict of `combine_recommendations` (index.py lines 572–576). -/
structure Weights where
  collaborative : ℚ
  content : ℚ
  cultural : ℚ
deriving Repr, DecidableEq

/-- The collaborative model artifact (index.py lines 319–325); the factor
matrices enter only through the abstract similarity vector, so only the
index lists are carried. -/
structure CollaborativeModel where
  user_index : List String
  item_index : List String := []
deriving Repr, DecidableEq

/-- The content model artifact (index.py lines 364–369); vectorizer, scaler
and feature matrix enter only through the abstract similarity vector, so only
the parallel product-id list is carried. -/
structure ContentModel where
  product_ids : List String
deriving Repr, DecidableEq

/-- A row of the popularity query of `get_popular_recommendations`
(index.py lines 783–797): `avg_rating` is `none` when the product has no
reviews (SQL `AVG` over an empty set). -/
structure PopularRow where
  product_id : String
  order_count : ℚ
  avg_rating : Option ℚ := none
deriving Repr, DecidableEq

/-- Python `x or d` on a nullable float: `None` and `0.0` are falsy. -/
def pyOrQ (x : Option ℚ) (d : ℚ) : ℚ :=
  match x with
  | none => d
  | some v => if v = 0 then d else v

/-- Python `x or d` on a nullable string: `None` and `""` are falsy. -/
def pyOrStr (x : Option String) (d : String) : String :=
  match x with
  | none => d
  | some s => if s = "" then d else s

/-- `get_popular_recommendations` (index.py lines 781–810): the SQL limits the
ordered popularity rows to `limit` and each row is scored
`order_count * (avg_rating or 3.0)` with reason `popular_in_uzbekistan`. -/
def get_popular_recommendations (rows : List PopularRow) (limit : Nat) :
    List SignalRec :=
  (rows.take limit).map fun row =>
    { product_id := row.product_id
      score := row.order_count * pyOrQ row.avg_rating 3
      reason := "popular_in_uzbekistan" }

/-- Stable insertion into an ascending-by-key index list; the `≤` test keeps
an index inserted from the left in front of equal-keyed indices. -/
def insertAsc (sims : List ℚ) (i : Nat) : List Nat → List Nat
  | [] => [i]
  | j :: js =>
    if sims.getD i 0 ≤ sims.getD j 0 then i :: j :: js
    else j :: insertAsc sims i js

/-- Model of `np.argsort(sims)`: the stable ascending argsort of the
similarity vector (indices of `sims` ordered by value, ties by index). -/
def argsortAsc (sims : List ℚ) : List Nat :=
  (List.range sims.length).foldr (insertAsc sims) []

/-- Model of `np.argsort(sims)[::-1]` as used throughout the source. -/
def argsortDescNp (sims : List ℚ) : List Nat :=
  (argsortAsc sims).reverse

/-- `get_collaborative_recommendations` (index.py lines 433–463).  A missing
model artifact returns `[]` (lines 435–436).  For a user present in
`user_index`, the source selects the top-10 similar users
(`np.argsort(similarities)[::-1][1:11]`) but the aggregation loop body is
`pass` (lines 453–457), so `recommendations` stays empty.  A user absent from
`user_index` makes `.index()` raise `ValueError`, caught to fall back to
`get_popular_recommendations` (lines 461–463). -/
def get_collaborative_recommendations (model : Option CollaborativeModel)
    (sims : List ℚ) (popularRows : List PopularRow)
    (user_profile : UserProfile) (limit : Nat) : List SignalRec :=
  match model with
  | none => []
  | some m =>
    if user_profile.user_id ∈ m.user_index then
      let _similar_user_indices := ((argsortDescNp sims).drop 1).take 10
      let recommendations : List SignalRec := []
      recommendations.take limit
    else
      get_popular_recommendations popularRows limit

/-- The index selection of `get_content_recommendations`
(index.py line 486): `np.argsort(similarities)[::-1][:limit]`. -/
def contentTopIndices (sims : List ℚ) (limit : Nat) : List Nat :=
  (argsortDescNp sims).take limit

/-- `get_content_recommendations` (index.py lines 465–498): top-`limit`
indices of the similarity vector, each mapped to its product id and score. -/
def get_content_recommendations (model : Option ContentModel)
    (sims : List ℚ) (limit : Nat) : List SignalRec :=
  match model with
  | none => []
  | some m =>
    (contentTopIndices sims limit).map fun idx =>
      { product_id := m.product_ids.getD idx ""
        score := sims.getD idx 0
        reason := "content_similarity" }

/-- The index selection of the `get_similar_products` endpoint
(index.py line 892): `np.argsort(similarities)[::-1][1:limit+1]`. -/
def similarTopIndices (sims : List ℚ) (limit : Nat) : List Nat :=
  ((argsortDescNp sims).drop 1).take limit

/-- `get_similar_products` endpoint (index.py lines 875–912): `none` models
the 503 (no content model) and 404 (product id absent) error responses. -/
def get_similar_products (model : Option ContentModel) (product_id : String)
    (sims : List ℚ) (limit : Nat) : Option (List SignalRec) :=
  match model with
  | none => none
  | some m =>
    if product_id ∈ m.product_ids then
      some ((similarTopIndices sims limit).map fun idx =>
        { product_id := m.product_ids.getD idx ""
          score := sims.getD idx 0
          reason := "content_similarity" })
    else none

/-- The weight-adjustment logic of `combine_recommendations`
(index.py lines 571–590): baseline (0.4, 0.3, 0.3); urban regions TSH/SAM
shift 0.1 from cultural to content, all other regions the reverse; context
`holiday_shopping` shifts 0.1 from each of collaborative and content into
cultural.  No renormalisation follows. -/
def compute_weights (user_profile : UserProfile) (context : String) : Weights :=
  let w : Weights := { collaborative := 4/10, content := 3/10, cultural := 3/10 }
  let w :=
    if user_profile.region = "TSH" ∨ user_profile.region = "SAM" then
      { w with content := w.content + 1/10, cultural := w.cultural - 1/10 }
    else
      { w with cultural := w.cultural + 1/10, content := w.content - 1/10 }
  if context = "holiday_shopping" then
    { w with cultural := w.cultural + 2/10
             collaborative := w.collaborative - 1/10
             content := w.content - 1/10 }
  else w

/-- A fresh entry of the `all_recommendations` dict
(index.py lines 599–604). -/
def emptyCombined (pid : String) : CombinedRec := { product_id := pid }

/-- The insertion-ordered dict `all_recommendations`, as an association list:
update the entry with key `pid` if present, else append a fresh entry. -/
def upsert (recs : List CombinedRec) (pid : String)
    (f : CombinedRec → CombinedRec) : List CombinedRec :=
  if recs.any (fun r => r.product_id == pid) then
    recs.map (fun r => if r.product_id == pid then f r else r)
  else
    recs ++ [f (emptyCombined pid)]

/-- The collaborative merge step (index.py lines 596–606). -/
def updCollaborative (w : Weights) (rec : SignalRec) (r : CombinedRec) :
    CombinedRec :=
  { r with collab_score := some (rec.score * w.collaborative)
           reasons := r.reasons ++ [rec.reason] }

/-- The content merge step (index.py lines 609–619). -/
def updContent (w : Weights) (rec : SignalRec) (r : CombinedRec) :
    CombinedRec :=
  { r with content_score := some (rec.score * w.content)
           reasons := r.reasons ++ [rec.reason] }

/-- The cultural merge step (index.py lines 622–634), including the
conditional copy of `cultural_factor`. -/
def updCultural (w : Weights) (rec : SignalRec) (r : CombinedRec) :
    CombinedRec :=
  { r with cultural_score := some (rec.score * w.cultural)
           reasons := r.reasons ++ [rec.reason]
           cultural_factor :=
             match rec.cultural_factor with
             | some c => some c
             | none => r.cultural_factor }

/-- Sum of the present per-signal entries of the `scores` dict
(`sum(data['scores'].values())`, index.py line 638). -/
def sumScores (r : CombinedRec) : ℚ :=
  r.collab_score.getD 0 + r.content_score.getD 0 + r.cultural_score.getD 0

/-- Stable descending insertion by `total_score`. -/
def insertDesc (x : CombinedRec) : List CombinedRec → List CombinedRec
  | [] => [x]
  | y :: l =>
    if y.total_score ≤ x.total_score then x :: y :: l
    else y :: insertDesc x l

/-- Python `sorted(..., key=total_score, reverse=True)` (stable, descending;
index.py lines 641–645). -/
def sortDesc : List CombinedRec → List CombinedRec
  | [] => []
  | x :: l => insertDesc x (sortDesc l)

/-- The three merge loops of `combine_recommendations`
(index.py lines 593–634), collaborative first, then content, then cultural,
each upserting into the insertion-ordered `all_recommendations` dict. -/
def mergeAll (collaborative_recs content_recs cultural_recs : List SignalRec)
    (w : Weights) : List CombinedRec :=
  cultural_recs.foldl
    (fun acc rec => upsert acc rec.product_id (updCultural w rec))
    (content_recs.foldl
      (fun acc rec => upsert acc rec.product_id (updContent w rec))
      (collaborative_recs.foldl
        (fun acc rec => upsert acc rec.product_id (updCollaborative w rec)) []))

/-- `combine_recommendations` (index.py lines 561–647): merge the three
signal lists into the insertion-ordered candidate dict with weighted
per-signal scores, set `total_score` to the sum of present entries, and
stable-sort descending by `total_score`. -/
def combine_recommendations
    (collaborative_recs content_recs cultural_recs : List SignalRec)
    (user_profile : UserProfile) (context : String) : List CombinedRec :=
  sortDesc ((mergeAll collaborative_recs content_recs cultural_recs
      (compute_weights user_profile context)).map
    (fun r => { r with total_score := sumScores r }))

/-- The `base_prices` dict lookup with default `base_prices['medium']`
(index.py lines 698–705). -/
def base_price_for (income_level : String) : ℚ :=
  if income_level = "low" then 500000
  else if income_level = "medium" then 2000000
  else if income_level = "high" then 10000000
  else 2000000

/-- The `regional_multipliers` dict with `.get(region, 0.9)` default
(index.py lines 708–724). -/
def regional_multipliers (region : String) : ℚ :=
  if region = "TSH" then 12/10
  else if region = "SAM" then 1
  else if region = "BUX" then 9/10
  else if region = "AND" then 85/100
  else if region = "FAR" then 85/100
  else if region = "NAM" then 8/10
  else if region = "QAS" then 8/10
  else if region = "SUR" then 75/100
  else if region = "NAV" then 8/10
  else if region = "JIZ" then 8/10
  else if region = "SIR" then 8/10
  else if region = "XOR" then 75/100
  else if region = "QOR" then 7/10
  else 9/10

/-- `get_max_price_for_user` (index.py lines 696–725). -/
def get_max_price_for_user (user_profile : UserProfile) : ℚ :=
  base_price_for (pyOrStr user_profile.income_level "medium") *
    regional_multipliers user_profile.region

/-- The `adjacent_regions` table (index.py lines 734–748). -/
def adjacent_regions (region : String) : List String :=
  if region = "TSH" then ["SIR", "JIZ"]
  else if region = "SAM" then ["BUX", "QAS", "NAV"]
  else if region = "BUX" then ["SAM", "QAS", "XOR"]
  else if region = "AND" then ["FAR", "NAM"]
  else if region = "FAR" then ["AND", "NAM"]
  else if region = "NAM" then ["AND", "FAR"]
  else if region = "QAS" then ["SAM", "BUX", "SUR"]
  else if region = "SUR" then ["QAS"]
  else if region = "NAV" then ["SAM", "BUX"]
  else if region = "JIZ" then ["TSH", "NAV"]
  else if region = "SIR" then ["TSH"]
  else if region = "XOR" then ["BUX", "QOR"]
  else if region = "QOR" then ["XOR"]
  else []

/-- `should_prefer_local_vendor` (index.py lines 727–750). -/
def should_prefer_local_vendor (user_profile : UserProfile)
    (vendor_region : String) : Bool :=
  user_profile.region == vendor_region ||
    (adjacent_regions user_profile.region).contains vendor_region

/-- The product lookup of `apply_uzbekistan_filters` (index.py lines 656–664);
`fetchrow` returns the first matching row or nothing. -/
def findProduct (catalog : List Product) (pid : String) : Option Product :=
  catalog.find? (fun p => p.product_id == pid)

/-- One iteration of the `apply_uzbekistan_filters` loop (index.py lines
654–692): drop if the product is gone or priced above the cap; multiply
`total_score` by 1.2 for a local/adjacent vendor and by 0.8 for a missing
Uzbek name when the user prefers Uzbek; enrich with display fields.  The
per-signal `scores` dict is not touched. -/
def filterStep (catalog : List Product) (user_profile : UserProfile)
    (rec : CombinedRec) : Option CombinedRec :=
  match findProduct catalog rec.product_id with
  | none => none
  | some product =>
    if product.price > get_max_price_for_user user_profile then none
    else
      let boosted :=
        if should_prefer_local_vendor user_profile product.vendor_region then
          rec.total_score * (6/5)
        else rec.total_score
      let adjusted :=
        if user_profile.language = "uz" ∧ product.name_ru ≠ "" ∧
            product.name = "" then
          boosted * (4/5)
        else boosted
      some { rec with
        total_score := adjusted
        product_name := some product.name
        product_name_ru := some product.name_ru
        price := some product.price
        vendor_region := some product.vendor_region
        vendor_rating := some product.vendor_rating
        category := some product.category }

/-- `apply_uzbekistan_filters` (index.py lines 649–694). -/
def apply_uzbekistan_filters (catalog : List Product)
    (recommendations : List CombinedRec) (user_profile : UserProfile) :
    List CombinedRec :=
  recommendations.filterMap (filterStep catalog user_profile)

/-- `get_recommendations` (index.py lines 399–431): collect the three signal
lists (each asked for `limit * 2` candidates), fuse, filter, drop exclusions,
truncate.  The cultural signal's DB-backed candidate list is passed in
directly (its query already carries `LIMIT limit * 2`). -/
def get_recommendations (catalog : List Product)
    (collabModel : Option CollaborativeModel) (collabSims : List ℚ)
    (popularRows : List PopularRow)
    (contentModel : Option ContentModel) (contentSims : List ℚ)
    (cultural_recs : List SignalRec)
    (user_profile : UserProfile) (context : String) (limit : Nat)
    (exclude_products : List String) : List CombinedRec :=
  ((apply_uzbekistan_filters catalog
      (combine_recommendations
        (get_collaborative_recommendations collabModel collabSims popularRows
          user_profile (limit * 2))
        (get_content_recommendations contentModel contentSims (limit * 2))
        cultural_recs user_profile context)
      user_profile).filter
    (fun rec => !(exclude_products.contains rec.product_id))).take limit

/-! ### Concrete inputs used by the counterexamples and witnesses below -/

/-- A user in the urban region SAM preferring Russian, no income tier. -/
def u0 : UserProfile := { user_id := "u1", region := "SAM", language := "ru" }

/-- A cheap product whose vendor sits in `u0`'s own region. -/
def p0w : Product :=
  { product_id := "P1", name := "x", category := "c", price := 100,
    vendor_region := "SAM", vendor_rating := 5 }

/-- A single-product catalog whose vendor sits in the user's own region. -/
def catalog0 : List Product := [p0w]

/-- One cultural candidate with raw score 1. -/
def cultural0 : List SignalRec :=
  [{ product_id := "P1", score := 1, reason := "cultural_relevance" }]

/-- The single candidate returned for `u0`/`catalog0`/`cultural0`: its
cultural entry is 1 × 0.2 but its combined score carries the 1.2 locality
boost on top. -/
def r0 : CombinedRec :=
  { product_id := "P1", cultural_score := some (1/5),
    reasons := ["cultural_relevance"], total_score := 6/25,
    product_name := some "x", product_name_ru := some "",
    price := some 100, vendor_region := some "SAM",
    vendor_rating := some 5, category := some "c" }

/-- Two cultural candidates whose fused order flips after the locality
boost: PA (raw 2) beats PB (raw 1.9) before filtering. -/
def culturalC4 : List SignalRec :=
  [{ product_id := "PA", score := 2, reason := "cultural_relevance" },
   { product_id := "PB", score := 19/10, reason := "cultural_relevance" }]

/-- PA's vendor is remote (XOR, not adjacent to SAM); PB's vendor is local. -/
def catalogC4 : List Product :=
  [{ product_id := "PA", name := "a", category := "c", price := 100,
     vendor_region := "XOR", vendor_rating := 5 },
   { product_id := "PB", name := "b", category := "c", price := 100,
     vendor_region := "SAM", vendor_rating := 5 }]

/-- Tashkent user with medium income: budget cap 2,000,000 × 1.2. -/
def uT : UserProfile :=
  { user_id := "u2", region := "TSH", language := "ru",
    income_level := some "medium" }

/-- Product priced exactly 2,000,000 (at the base, under the cap). -/
def p1 : Product :=
  { product_id := "P1", name := "p", category := "c", price := 2000000,
    vendor_region := "TSH", vendor_rating := 5 }

/-- Product priced 3,000,000 (above the 2,400,000 cap). -/
def p2 : Product :=
  { product_id := "P2", name := "q", category := "c", price := 3000000,
    vendor_region := "TSH", vendor_rating := 5 }

/-- Catalog for the budget-cap scenario. -/
def catalogT : List Product := [p1, p2]

/-- Cultural candidates naming both budget-scenario products. -/
def culturalT : List SignalRec :=
  [{ product_id := "P1", score := 1, reason := "cultural_relevance" },
   { product_id := "P2", score := 1, reason := "cultural_relevance" }]

/-- The surviving budget-scenario candidate (P1, locality-boosted). -/
def r1 : CombinedRec :=
  { product_id := "P1", cultural_score := some (1/5),
    reasons := ["cultural_relevance"], total_score := 6/25,
    product_name := some "p", product_name_ru := some "",
    price := some 2000000, vendor_region := some "TSH",
    vendor_rating := some 5, category := some "c" }

/-- One popular product: 5 recent orders, average rating 4. -/
def popRows0 : List PopularRow :=
  [{ product_id := "P1", order_count := 5, avg_rating := some 4 }]

/-- A collaborative model whose user index contains exactly `u1`. -/
def model0 : CollaborativeModel := { user_index := ["u1"] }

/-- A user absent from `model0`'s user index (cold start). -/
def uX : UserProfile := { user_id := "zz", region := "SAM", language := "ru" }

/-- A two-product content model for the tie-break counterexamples. -/
def cm0 : ContentModel := { product_ids := ["p0", "p1"] }

/-- A two-product content model for the strict-max witness. -/
def cmW : ContentModel := { product_ids := ["a", "b"] }

/-- A rural-region user (BUX is outside the urban set). -/
def uR : UserProfile := { user_id := "u3", region := "BUX" }

/-- A Tashkent user with an unrecognised income tier. -/
def uU : UserProfile :=
  { user_id := "u4", region := "TSH", income_level := some "unknown" }

/-! ### Generic lemmas: stable descending sort -/

/-- The descending order on combined candidates used by the final sort. -/
abbrev geTotal (a b : CombinedRec) : Prop := b.total_score ≤ a.total_score

/-- The strict order realised by the stable ascending argsort:
by key, ties by index. -/
def lexLt (sims : List ℚ) (i j : Nat) : Prop :=
  sims.getD i 0 < sims.getD j 0 ∨ (sims.getD i 0 = sims.getD j 0 ∧ i < j)

/-- The key sequence of a candidate list. -/
abbrev keys (l : List CombinedRec) : List String :=
  l.map CombinedRec.product_id

theorem insertDesc_perm (x : CombinedRec) (l : List CombinedRec) :
    List.Perm (insertDesc x l) (x :: l) := by
  induction l with
  | nil => rfl
  | cons y l ih =>
    unfold insertDesc
    split
    · rfl
    · exact (ih.cons y).trans (List.Perm.swap x y l)

theorem sortDesc_perm (l : List CombinedRec) : List.Perm (sortDesc l) l := by
  induction l with
  | nil => rfl
  | cons x l ih => exact (insertDesc_perm x (sortDesc l)).trans (ih.cons x)

theorem insertDesc_pairwise (x : CombinedRec) :
    ∀ l : List CombinedRec, l.Pairwise geTotal →
      (insertDesc x l).Pairwise geTotal := by
  intro l
  induction l with
  | nil => intro _; exact List.pairwise_singleton _ _
  | cons y l ih =>
    intro hl
    rw [List.pairwise_cons] at hl
    obtain ⟨hy, hl'⟩ := hl
    unfold insertDesc
    split
    next h =>
      rw [List.pairwise_cons]
      refine ⟨?_, List.pairwise_cons.mpr ⟨hy, hl'⟩⟩
      intro b hb
      rcases List.mem_cons.mp hb with rfl | hb
      · exact h
      · exact le_trans (hy b hb) h
    next h =>
      rw [List.pairwise_cons]
      refine ⟨?_, ih hl'⟩
      intro b hb
      have hb' := (insertDesc_perm x l).mem_iff.mp hb
      rcases List.mem_cons.mp hb' with rfl | hb'
      · exact le_of_lt (lt_of_not_le h)
      · exact hy b hb'

theorem sortDesc_pairwise (l : List CombinedRec) :
    (sortDesc l).Pairwise geTotal := by
  induction l with
  | nil => exact List.Pairwise.nil
  | cons x l ih => exact insertDesc_pairwise x (sortDesc l) ih

/-! ### Generic lemmas: the argsort model -/

theorem insertAsc_perm (sims : List ℚ) (i : Nat) (l : List Nat) :
    List.Perm (insertAsc sims i l) (i :: l) := by
  induction l with
  | nil => rfl
  | cons j js ih =>
    unfold insertAsc
    split
    · rfl
    · exact (ih.cons j).trans (List.Perm.swap i j js)

theorem insertAsc_pairwise (sims : List ℚ) (i : Nat) :
    ∀ l : List Nat, l.Pairwise (lexLt sims) → (∀ j ∈ l, i < j) →
      (insertAsc sims i l).Pairwise (lexLt sims) := by
  intro l
  induction l with
  | nil => intro _ _; exact List.pairwise_singleton _ _
  | cons j js ih =>
    intro hl hmem
    rw [List.pairwise_cons] at hl
    obtain ⟨hj, hjs⟩ := hl
    unfold insertAsc
    split
    next hle =>
      rw [List.pairwise_cons]
      refine ⟨?_, List.pairwise_cons.mpr ⟨hj, hjs⟩⟩
      intro b hb
      rcases List.mem_cons.mp hb with rfl | hb
      · rcases lt_or_eq_of_le hle with hlt | heq
        · exact Or.inl hlt
        · exact Or.inr ⟨heq, hmem b (List.mem_cons_self _ _)⟩
      · have hjb := hj b hb
        rcases hjb with hlt2 | ⟨heq2, _⟩
        · exact Or.inl (lt_of_le_of_lt hle hlt2)
        · rcases lt_or_eq_of_le hle with h1 | h1
          · exact Or.inl (heq2 ▸ h1)
          · exact Or.inr ⟨h1.trans heq2, hmem b (List.mem_cons_of_mem _ hb)⟩
    next hle =>
      have hlt : sims.getD j 0 < sims.getD i 0 := lt_of_not_le hle
      rw [List.pairwise_cons]
      refine ⟨?_, ih hjs (fun b hb => hmem b (List.mem_cons_of_mem _ hb))⟩
      intro b hb
      have hb' := (insertAsc_perm sims i js).mem_iff.mp hb
      rcases List.mem_cons.mp hb' with rfl | hb'
      · exact Or.inl hlt
      · exact hj b hb'

theorem foldr_insertAsc_spec (sims : List ℚ) :
    ∀ l : List Nat, l.Pairwise (· < ·) →
      List.Perm (l.foldr (insertAsc sims) []) l ∧
        (l.foldr (insertAsc sims) []).Pairwise (lexLt sims) := by
  intro l
  induction l with
  | nil => intro _; exact ⟨List.Perm.refl _, List.Pairwise.nil⟩
  | cons i l ih =>
    intro hl
    rw [List.pairwise_cons] at hl
    obtain ⟨hi, hl'⟩ := hl
    obtain ⟨hperm, hpw⟩ := ih hl'
    rw [List.foldr_cons]
    constructor
    · exact (insertAsc_perm sims i _).trans (hperm.cons i)
    · exact insertAsc_pairwise sims i _ hpw
        (fun j hj => hi j (hperm.mem_iff.mp hj))

theorem argsortAsc_perm (sims : List ℚ) :
    List.Perm (argsortAsc sims) (List.range sims.length) :=
  (foldr_insertAsc_spec sims _ (List.pairwise_lt_range _)).1

theorem argsortAsc_pairwise (sims : List ℚ) :
    (argsortAsc sims).Pairwise (lexLt sims) :=
  (foldr_insertAsc_spec sims _ (List.pairwise_lt_range _)).2

theorem argsortDescNp_perm (sims : List ℚ) :
    List.Perm (argsortDescNp sims) (List.range sims.length) :=
  (List.reverse_perm _).trans (argsortAsc_perm sims)

theorem argsortDescNp_pairwise (sims : List ℚ) :
    (argsortDescNp sims).Pairwise (fun i j => lexLt sims j i) := by
  unfold argsortDescNp
  rw [List.pairwise_reverse]
  exact argsortAsc_pairwise sims

theorem argsortDescNp_drop_one_not_self (sims : List ℚ) (q : Nat)
    (hq : q < sims.length)
    (hmax : ∀ j, j < sims.length → j ≠ q → sims.getD j 0 < sims.getD q 0) :
    q ∉ (argsortDescNp sims).drop 1 := by
  have hperm := argsortDescNp_perm sims
  have hnodup : (argsortDescNp sims).Nodup :=
    hperm.nodup_iff.mpr (List.nodup_range _)
  have hpw := argsortDescNp_pairwise sims
  cases hrl : argsortDescNp sims with
  | nil => simp
  | cons a rest =>
    rw [hrl] at hperm hnodup hpw
    simp only [List.drop_succ_cons, List.drop_zero]
    intro hqrest
    rw [List.pairwise_cons] at hpw
    have hqa : lexLt sims q a := hpw.1 q hqrest
    have ha_lt : a < sims.length :=
      List.mem_range.mp (hperm.subset (List.mem_cons_self a rest))
    rw [List.nodup_cons] at hnodup
    by_cases haq : a = q
    · exact hnodup.1 (haq ▸ hqrest)
    · have hstrict := hmax a ha_lt haq
      rcases hqa with hlt | ⟨heq, _⟩
      · exact lt_asymm hlt hstrict
      · rw [heq] at hstrict
        exact lt_irrefl _ hstrict

/-! ### Generic lemmas: the fused candidate dict and the post-filter -/

theorem upsert_keys (recs : List CombinedRec) (pid : String)
    (f : CombinedRec → CombinedRec)
    (hf : ∀ r, (f r).product_id = r.product_id) :
    keys (upsert recs pid f) = keys recs ∨
      (keys (upsert recs pid f) = keys recs ++ [pid] ∧ pid ∉ keys recs) := by
  unfold upsert
  split
  next h =>
    left
    unfold keys
    rw [List.map_map]
    apply List.map_congr_left
    intro r _
    dsimp
    split
    next => rw [hf r]
    next => rfl
  next h =>
    right
    constructor
    · unfold keys
      rw [List.map_append]
      simp [hf, emptyCombined]
    · intro hmem
      apply h
      rw [List.any_eq_true]
      obtain ⟨r, hr, hpid⟩ := List.mem_map.mp hmem
      exact ⟨r, hr, by simp [hpid]⟩

theorem upsert_keys_nodup (recs : List CombinedRec) (pid : String)
    (f : CombinedRec → CombinedRec)
    (hf : ∀ r, (f r).product_id = r.product_id)
    (h : (keys recs).Nodup) : (keys (upsert recs pid f)).Nodup := by
  rcases upsert_keys recs pid f hf with heq | ⟨heq, hnm⟩
  · rw [heq]; exact h
  · rw [heq]
    simp [List.nodup_append, h, hnm]

theorem foldl_upsert_keys_nodup (g : SignalRec → CombinedRec → CombinedRec)
    (hg : ∀ s r, (g s r).product_id = r.product_id)
    (sigs : List SignalRec) :
    ∀ acc : List CombinedRec, (keys acc).Nodup →
      (keys (sigs.foldl (fun a s => upsert a s.product_id (g s)) acc)).Nodup := by
  induction sigs with
  | nil => intro acc hacc; exact hacc
  | cons s sigs ih =>
    intro acc hacc
    exact ih _ (upsert_keys_nodup _ _ _ (hg s) hacc)

theorem mergeAll_keys_nodup (c1 c2 c3 : List SignalRec) (w : Weights) :
    (keys (mergeAll c1 c2 c3 w)).Nodup := by
  unfold mergeAll
  apply foldl_upsert_keys_nodup (updCultural w) (fun s r => rfl)
  apply foldl_upsert_keys_nodup (updContent w) (fun s r => rfl)
  apply foldl_upsert_keys_nodup (updCollaborative w) (fun s r => rfl)
  exact List.nodup_nil

theorem keys_map_total (l : List CombinedRec) :
    keys (l.map (fun r => { r with total_score := sumScores r })) = keys l := by
  unfold keys
  rw [List.map_map]
  apply List.map_congr_left
  intro r _
  rfl

theorem combine_keys_nodup (c1 c2 c3 : List SignalRec) (u : UserProfile)
    (ctx : String) :
    (keys (combine_recommendations c1 c2 c3 u ctx)).Nodup := by
  have h1 := mergeAll_keys_nodup c1 c2 c3 (compute_weights u ctx)
  rw [← keys_map_total (mergeAll c1 c2 c3 (compute_weights u ctx))] at h1
  unfold combine_recommendations
  have h3 := (sortDesc_perm ((mergeAll c1 c2 c3 (compute_weights u ctx)).map
    (fun r => { r with total_score := sumScores r }))).map CombinedRec.product_id
  exact h3.nodup_iff.mpr h1

theorem combine_total (c1 c2 c3 : List SignalRec) (u : UserProfile)
    (ctx : String) :
    ∀ r ∈ combine_recommendations c1 c2 c3 u ctx,
      r.total_score = sumScores r := by
  intro r hr
  unfold combine_recommendations at hr
  have hr' := (sortDesc_perm _).mem_iff.mp hr
  obtain ⟨r0, _, rfl⟩ := List.mem_map.mp hr'
  rfl

theorem combine_pairwise (c1 c2 c3 : List SignalRec) (u : UserProfile)
    (ctx : String) :
    (combine_recommendations c1 c2 c3 u ctx).Pairwise geTotal := by
  unfold combine_recommendations
  exact sortDesc_pairwise _

theorem filterStep_eq_some (catalog : List Product) (u : UserProfile)
    (rec r : CombinedRec) (h : filterStep catalog u rec = some r) :
    ∃ p, findProduct catalog rec.product_id = some p ∧
      p.price ≤ get_max_price_for_user u ∧
      r.product_id = rec.product_id ∧
      r.collab_score = rec.collab_score ∧
      r.content_score = rec.content_score ∧
      r.cultural_score = rec.cultural_score ∧
      r.total_score = rec.total_score *
        (if should_prefer_local_vendor u p.vendor_region then 6/5 else 1) *
        (if u.language = "uz" ∧ p.name_ru ≠ "" ∧ p.name = "" then 4/5
         else 1) := by
  unfold filterStep at h
  cases hfp : findProduct catalog rec.product_id with
  | none => rw [hfp] at h; cases h
  | some p =>
    rw [hfp] at h
    dsimp only at h
    by_cases hprice : p.price > get_max_price_for_user u
    · rw [if_pos hprice] at h; cases h
    · rw [if_neg hprice] at h
      injection h with h
      subst h
      refine ⟨p, rfl, not_lt.mp hprice, rfl, rfl, rfl, rfl, ?_⟩
      by_cases hloc : should_prefer_local_vendor u p.vendor_region
      · by_cases hlang : u.language = "uz" ∧ p.name_ru ≠ "" ∧ p.name = ""
        · simp [hloc, hlang]
        · simp [hloc, hlang]
      · by_cases hlang : u.language = "uz" ∧ p.name_ru ≠ "" ∧ p.name = ""
        · simp [hloc, hlang]
        · simp [hloc, hlang]

theorem filterStep_pid (catalog : List Product) (u : UserProfile)
    (rec r : CombinedRec) (h : filterStep catalog u rec = some r) :
    r.product_id = rec.product_id := by
  obtain ⟨p, -, -, hpid, -⟩ := filterStep_eq_some catalog u rec r h
  exact hpid

theorem filterStep_sumScores (catalog : List Product) (u : UserProfile)
    (rec r : CombinedRec) (h : filterStep catalog u rec = some r) :
    sumScores r = sumScores rec := by
  obtain ⟨p, -, -, -, h1, h2, h3, -⟩ := filterStep_eq_some catalog u rec r h
  unfold sumScores
  rw [h1, h2, h3]

theorem filterMap_map_sublist {γ : Type} (f : CombinedRec → Option CombinedRec)
    (g : CombinedRec → γ) (hfg : ∀ a b, f a = some b → g b = g a)
    (l : List CombinedRec) :
    List.Sublist ((l.filterMap f).map g) (l.map g) := by
  induction l with
  | nil => simp
  | cons a l ih =>
    cases hfa : f a with
    | none =>
      rw [List.filterMap_cons_none hfa, List.map_cons]
      exact ih.trans (List.sublist_cons_self _ _)
    | some b =>
      rw [List.filterMap_cons_some hfa, List.map_cons, List.map_cons,
        hfg a b hfa]
      exact ih.cons₂ (g a)

theorem take_filter_filterMap_map_sublist {γ : Type}
    (f : CombinedRec → Option CombinedRec) (g : CombinedRec → γ)
    (hfg : ∀ a b, f a = some b → g b = g a) (q : CombinedRec → Bool)
    (limit : Nat) (l : List CombinedRec) :
    List.Sublist (((((l.filterMap f).filter q).take limit).map g))
      (l.map g) :=
  ((List.take_sublist _ _).map g).trans
    (((List.filter_sublist _).map g).trans (filterMap_map_sublist f g hfg l))

/-! ### Claim theorems -/

section
attribute [local semireducible] Rat.mul Rat.inv Rat.add Rat.sub

/-- Claim C1, counterexample: at this input the single returned candidate
carries combined score 6/25 (the cultural entry 1/5 times the 1.2 locality
boost) while the sum of its present per-signal entries is 1/5, so the
sum-consistency invariant does not survive the post-filter stage. -/
theorem c1_counterexample :
    (get_recommendations catalog0 none [] [] none [] cultural0 u0 "general"
        10 []).map (fun r => (r.total_score, sumScores r)) = [(6/25, 1/5)] ∧
      (6/25 : ℚ) ≠ 1/5 := by
  constructor
  · decide
  · decide

/-- Claim C1, amended: every candidate in the final output has combined score
equal to the sum of its present per-signal weighted entries multiplied by the
locality-boost factor (1.2 when the vendor is local/adjacent, else 1) and the
language-penalty factor (0.8 when the user prefers Uzbek and the product has
a Russian but no Uzbek name, else 1); sum-consistency itself holds exactly at
the output of fusion and for unboosted, unpenalised candidates. -/
theorem c1_total_score_factors (catalog : List Product)
    (collabModel : Option CollaborativeModel) (collabSims : List ℚ)
    (popularRows : List PopularRow) (contentModel : Option ContentModel)
    (contentSims : List ℚ) (cultural_recs : List SignalRec)
    (u : UserProfile) (context : String) (limit : Nat)
    (exclude_products : List String) (r : CombinedRec) (p : Product)
    (hr : r ∈ get_recommendations catalog collabModel collabSims popularRows
      contentModel contentSims cultural_recs u context limit exclude_products)
    (hp : findProduct catalog r.product_id = some p) :
    r.total_score = sumScores r *
      (if should_prefer_local_vendor u p.vendor_region then 6/5 else 1) *
      (if u.language = "uz" ∧ p.name_ru ≠ "" ∧ p.name = "" then 4/5
       else 1) := by
  unfold get_recommendations at hr
  have hr1 := List.mem_of_mem_take hr
  have hr2 := List.mem_of_mem_filter hr1
  unfold apply_uzbekistan_filters at hr2
  obtain ⟨rec, hrec, hstep⟩ := List.mem_filterMap.mp hr2
  obtain ⟨p0, hfp, hple, hpid, hc1, hc2, hc3, htot⟩ :=
    filterStep_eq_some catalog u rec r hstep
  rw [hpid, hfp] at hp
  injection hp with hp
  subst hp
  have hsum : sumScores r = sumScores rec := by
    unfold sumScores
    rw [hc1, hc2, hc3]
  rw [htot, combine_total _ _ _ _ _ rec hrec, hsum]

/-- Witness for the amended C1 theorem at the concrete boosted candidate. -/
theorem c1_total_score_factors_witness :
    r0.total_score = sumScores r0 *
      (if should_prefer_local_vendor u0 p0w.vendor_region then 6/5 else 1) *
      (if u0.language = "uz" ∧ p0w.name_ru ≠ "" ∧ p0w.name = "" then 4/5
       else 1) :=
  c1_total_score_factors catalog0 none [] [] none [] cultural0 u0 "general"
    10 [] r0 p0w (by decide) (by decide)

/-- Claim C2: for every catalog, model state, signal input, user, context,
limit and exclusion set, the list returned by `get_recommendations` has
length at most `limit` and contains no two entries with the same product
identity. -/
theorem c2_limit_and_nodup (catalog : List Product)
    (collabModel : Option CollaborativeModel) (collabSims : List ℚ)
    (popularRows : List PopularRow) (contentModel : Option ContentModel)
    (contentSims : List ℚ) (cultural_recs : List SignalRec)
    (u : UserProfile) (context : String) (limit : Nat)
    (exclude_products : List String) :
    (get_recommendations catalog collabModel collabSims popularRows
        contentModel contentSims cultural_recs u context limit
        exclude_products).length ≤ limit ∧
      ((get_recommendations catalog collabModel collabSims popularRows
        contentModel contentSims cultural_recs u context limit
        exclude_products).map CombinedRec.product_id).Nodup := by
  constructor
  · unfold get_recommendations
    exact List.length_take_le _ _
  · unfold get_recommendations apply_uzbekistan_filters
    exact List.Nodup.sublist
      (take_filter_filterMap_map_sublist (filterStep catalog u)
        CombinedRec.product_id
        (fun a b h => filterStep_pid catalog u a b h)
        (fun rec => !(exclude_products.contains rec.product_id)) limit
        (combine_recommendations
          (get_collaborative_recommendations collabModel collabSims
            popularRows u (limit * 2))
          (get_content_recommendations contentModel contentSims (limit * 2))
          cultural_recs u context))
      (combine_keys_nodup
        (get_collaborative_recommendations collabModel collabSims popularRows
          u (limit * 2))
        (get_content_recommendations contentModel contentSims (limit * 2))
        cultural_recs u context)

/-- Claim C3 (code bug): for a user present in the collaborative model's user
index, the source computes the top-10 similar users
(`np.argsort(similarities)[::-1][1:11]`) but the aggregation loop body is
`pass` with a placeholder comment, so the collaborative candidate list is
always empty — never the similar users' similarity-weighted items. -/
theorem c3_collaborative_empty (m : CollaborativeModel) (sims : List ℚ)
    (popularRows : List PopularRow) (u : UserProfile) (limit : Nat)
    (h : u.user_id ∈ m.user_index) :
    get_collaborative_recommendations (some m) sims popularRows u limit
      = [] := by
  simp [get_collaborative_recommendations, h]

/-- Witness: a user present in the index with non-trivial similarities still
gets an empty collaborative candidate list. -/
theorem c3_collaborative_empty_witness :
    get_collaborative_recommendations (some model0) [1, 2] popRows0 u0 10
      = [] :=
  c3_collaborative_empty model0 [1, 2] popRows0 u0 10 (by decide)

/-- Claim C4, counterexample: at this input the returned combined scores are
[2/5, 57/125] with 2/5 < 57/125, so the final list is not ordered by the
post-adjustment combined scores — no re-sort happens after the locality
boost. -/
theorem c4_counterexample :
    (get_recommendations catalogC4 none [] [] none [] culturalC4 u0 "general"
        10 []).map CombinedRec.total_score = [2/5, 57/125] ∧
      ¬ ((2/5 : ℚ) ≥ 57/125) := by
  constructor
  · decide
  · decide

/-- Claim C4, amended: the returned list preserves the descending order of
the pre-adjustment fused scores (the sums of the per-signal entries, which
the post-filter leaves untouched); boosts and penalties are applied without
re-sorting, so the final combined scores may be out of order. -/
theorem c4_presort_order (catalog : List Product)
    (collabModel : Option CollaborativeModel) (collabSims : List ℚ)
    (popularRows : List PopularRow) (contentModel : Option ContentModel)
    (contentSims : List ℚ) (cultural_recs : List SignalRec)
    (u : UserProfile) (context : String) (limit : Nat)
    (exclude_products : List String) :
    ((get_recommendations catalog collabModel collabSims popularRows
        contentModel contentSims cultural_recs u context limit
        exclude_products).map sumScores).Pairwise (fun a b => b ≤ a) := by
  unfold get_recommendations apply_uzbekistan_filters
  have hpw : (combine_recommendations
      (get_collaborative_recommendations collabModel collabSims popularRows
        u (limit * 2))
      (get_content_recommendations contentModel contentSims (limit * 2))
      cultural_recs u context).Pairwise
      (fun a b => sumScores b ≤ sumScores a) := by
    have h1 := combine_pairwise
      (get_collaborative_recommendations collabModel collabSims popularRows
        u (limit * 2))
      (get_content_recommendations contentModel contentSims (limit * 2))
      cultural_recs u context
    have h2 := combine_total
      (get_collaborative_recommendations collabModel collabSims popularRows
        u (limit * 2))
      (get_content_recommendations contentModel contentSims (limit * 2))
      cultural_recs u context
    exact h1.imp_of_mem (fun ha hb hab => by
      rw [← h2 _ ha, ← h2 _ hb]; exact hab)
  have hq : ((combine_recommendations
      (get_collaborative_recommendations collabModel collabSims popularRows
        u (limit * 2))
      (get_content_recommendations contentModel contentSims (limit * 2))
      cultural_recs u context).map sumScores).Pairwise (fun a b => b ≤ a) :=
    List.pairwise_map.mpr hpw
  exact List.Pairwise.sublist
    (take_filter_filterMap_map_sublist (filterStep catalog u) sumScores
      (fun a b h => filterStep_sumScores catalog u a b h)
      (fun rec => !(exclude_products.contains rec.product_id)) limit
      (combine_recommendations
        (get_collaborative_recommendations collabModel collabSims popularRows
          u (limit * 2))
        (get_content_recommendations contentModel contentSims (limit * 2))
        cultural_recs u context)) hq


/-- Claim C5: for a holiday-shopping request from a user whose region is
outside the urban set TSH/SAM, the fusion weights are exactly
collaborative 0.4 − 0.1 = 0.3, content 0.3 − 0.1 − 0.1 = 0.1, and
cultural 0.3 + 0.1 + 0.2 = 0.6, with no renormalisation afterwards. -/
theorem c5_holiday_rural_weights (u : UserProfile)
    (h : ¬(u.region = "TSH" ∨ u.region = "SAM")) :
    compute_weights u "holiday_shopping" =
      { collaborative := 3/10, content := 1/10, cultural := 6/10 } := by
  simp only [compute_weights, if_neg h]
  decide

/-- Witness: the weight vector at the concrete rural region BUX. -/
theorem c5_holiday_rural_weights_witness :
    compute_weights uR "holiday_shopping" =
      { collaborative := 3/10, content := 1/10, cultural := 6/10 } :=
  c5_holiday_rural_weights uR (by decide)

/-- Claim C6: a candidate whose catalog price strictly exceeds the user's
budget cap (income-tier base price times the region cost-of-living
multiplier) never appears in the returned list: every returned candidate's
catalog price is at most the cap. -/
theorem c6_budget_cap (catalog : List Product)
    (collabModel : Option CollaborativeModel) (collabSims : List ℚ)
    (popularRows : List PopularRow) (contentModel : Option ContentModel)
    (contentSims : List ℚ) (cultural_recs : List SignalRec)
    (u : UserProfile) (context : String) (limit : Nat)
    (exclude_products : List String) (r : CombinedRec) (p : Product)
    (hr : r ∈ get_recommendations catalog collabModel collabSims popularRows
      contentModel contentSims cultural_recs u context limit exclude_products)
    (hp : findProduct catalog r.product_id = some p) :
    p.price ≤ get_max_price_for_user u := by
  unfold get_recommendations at hr
  have hr1 := List.mem_of_mem_take hr
  have hr2 := List.mem_of_mem_filter hr1
  unfold apply_uzbekistan_filters at hr2
  obtain ⟨rec, hrec, hstep⟩ := List.mem_filterMap.mp hr2
  obtain ⟨p0, hfp, hple, hpid, -⟩ := filterStep_eq_some catalog u rec r hstep
  rw [hpid, hfp] at hp
  injection hp with hp
  subst hp
  exact hple

/-- Witness, the spec's scenario: a TSH user with medium income has cap
2,000,000 × 1.2 = 2,400,000; of the candidates priced 2,000,000 and
3,000,000 only the first survives, and the theorem applied to the survivor
bounds its price by the cap. -/
theorem c6_budget_cap_witness :
    get_max_price_for_user uT = 2400000 ∧
      (get_recommendations catalogT none [] [] none [] culturalT uT "general"
        10 []).map CombinedRec.product_id = ["P1"] ∧
      p1.price ≤ get_max_price_for_user uT :=
  ⟨by decide, by decide,
    c6_budget_cap catalogT none [] [] none [] culturalT uT "general" 10 []
      r1 p1 (by decide) (by decide)⟩

/-- Claim C7, counterexample: with no collaborative artifact loaded the
collaborative signal returns the empty list (index.py lines 435–436), not
the popularity fallback, which at this input is non-empty. -/
theorem c7_counterexample :
    get_collaborative_recommendations none [] popRows0 u0 10 = [] ∧
      get_popular_recommendations popRows0 10 =
        [{ product_id := "P1", score := 20,
           reason := "popular_in_uzbekistan" }] ∧
      ([] : List SignalRec) ≠
        [{ product_id := "P1", score := 20,
           reason := "popular_in_uzbekistan" }] := by
  refine ⟨rfl, by decide, by decide⟩

/-- Claim C7, amended: the popularity fallback substitutes for the
collaborative signal only in the cold-start case (user absent from the
model's user index); when no collaborative model is loaded at all the signal
returns the empty list instead. -/
theorem c7_fallback_cases :
    (∀ (m : CollaborativeModel) (sims : List ℚ) (rows : List PopularRow)
        (u : UserProfile) (limit : Nat), u.user_id ∉ m.user_index →
        get_collaborative_recommendations (some m) sims rows u limit =
          get_popular_recommendations rows limit) ∧
      (∀ (sims : List ℚ) (rows : List PopularRow) (u : UserProfile)
          (limit : Nat),
        get_collaborative_recommendations none sims rows u limit = []) := by
  constructor
  · intro m sims rows u limit h
    simp [get_collaborative_recommendations, h]
  · intro sims rows u limit
    rfl

/-- Witness: a cold-start user receives exactly the popularity fallback. -/
theorem c7_fallback_cases_witness :
    get_collaborative_recommendations (some model0) [] popRows0 uX 10 =
      get_popular_recommendations popRows0 10 :=
  c7_fallback_cases.1 model0 [] popRows0 uX 10 (by decide)

/-- Claim C8, counterexample: the two products have equal similarity 1, yet
the returned order is [p1, p0] — the product at the HIGHER index in the
stored product-id list is ranked first, not the lower one as claimed. -/
theorem c8_counterexample :
    (get_content_recommendations (some cm0) [1, 1] 2).map
        SignalRec.product_id = ["p1", "p0"] ∧
      (get_content_recommendations (some cm0) [1, 1] 2).map
        SignalRec.score = [1, 1] := by
  refine ⟨by decide, by decide⟩

/-- Claim C8, amended: the content signal returns the top-k by similarity
descending, but whenever two products have exactly equal similarity the one
at the HIGHER index in the stored product-id list is ranked first (the
ascending argsort is reversed, flipping its index tie order). -/
theorem c8_ranking (m : ContentModel) (sims : List ℚ) (limit : Nat) :
    ((get_content_recommendations (some m) sims limit).map
        SignalRec.score).Pairwise (fun a b => b ≤ a) ∧
      (contentTopIndices sims limit).Pairwise (fun i j => lexLt sims j i) := by
  have htake : (contentTopIndices sims limit).Pairwise
      (fun i j => lexLt sims j i) :=
    List.Pairwise.sublist (List.take_sublist _ _) (argsortDescNp_pairwise sims)
  refine ⟨?_, htake⟩
  unfold get_content_recommendations
  rw [List.map_map, List.pairwise_map]
  exact htake.imp (fun h => h.elim le_of_lt (fun hh => le_of_eq hh.1))

/-- Claim C9, counterexample: with two identical products both at cosine
similarity 1 to the queried product p0, the lookup returns p0 itself among
its own neighbors — dropping only the head of the reversed argsort removes
the tied higher-index product p1, not the queried one. -/
theorem c9_counterexample :
    get_similar_products (some cm0) "p0" [1, 1] 10 =
      some [{ product_id := "p0", score := 1,
              reason := "content_similarity" }] := by
  decide

/-- Claim C9, amended: the lookup drops exactly the head of the descending
similarity order, so the queried product is excluded whenever its similarity
is strictly greater than every other product's — self-exclusion is not
guaranteed when another product ties the self-similarity. -/
theorem c9_strict_max_excludes_self (m : ContentModel) (pid : String)
    (sims : List ℚ) (limit : Nat) (l : List SignalRec)
    (hnodup : m.product_ids.Nodup)
    (hlen : sims.length = m.product_ids.length)
    (hmem : pid ∈ m.product_ids)
    (hmax : ∀ j, j < sims.length → j ≠ m.product_ids.indexOf pid →
      sims.getD j 0 < sims.getD (m.product_ids.indexOf pid) 0)
    (hl : get_similar_products (some m) pid sims limit = some l) :
    ∀ r ∈ l, r.product_id ≠ pid := by
  intro r hr
  unfold get_similar_products at hl
  dsimp only at hl
  rw [if_pos hmem] at hl
  injection hl with hl
  subst hl
  obtain ⟨idx, hidx, rfl⟩ := List.mem_map.mp hr
  unfold similarTopIndices at hidx
  have hq : m.product_ids.indexOf pid < m.product_ids.length :=
    List.indexOf_lt_length.mpr hmem
  have hq2 : m.product_ids.indexOf pid < sims.length := by
    rw [hlen]; exact hq
  have hidx1 : idx ∈ (argsortDescNp sims).drop 1 :=
    List.mem_of_mem_take hidx
  have hnotself := argsortDescNp_drop_one_not_self sims
    (m.product_ids.indexOf pid) hq2 hmax
  have hne : idx ≠ m.product_ids.indexOf pid := by
    intro h
    exact hnotself (h ▸ hidx1)
  have hidx2 : idx ∈ argsortDescNp sims :=
    (List.drop_sublist _ _).subset hidx1
  have hidxlt : idx < sims.length :=
    List.mem_range.mp ((argsortDescNp_perm sims).subset hidx2)
  have hgl : idx < m.product_ids.length := by
    rw [← hlen]; exact hidxlt
  dsimp only
  intro hcontra
  rw [List.getD_eq_getElem _ _ hgl] at hcontra
  have hpidq : m.product_ids[m.product_ids.indexOf pid] = pid :=
    List.getElem_indexOf hq
  rw [← hpidq] at hcontra
  exact hne ((List.Nodup.getElem_inj_iff hnodup).mp hcontra)

/-- Witness: with the queried product's similarity strictly greatest, the
theorem excludes it from its own returned neighbor list. -/
theorem c9_strict_max_excludes_self_witness :
    ({ product_id := "a", score := 1, reason := "content_similarity" }
        : SignalRec).product_id ≠ "b" :=
  c9_strict_max_excludes_self cmW "b" [1, 2] 10
    [{ product_id := "a", score := 1, reason := "content_similarity" }]
    (by decide) (by decide) (by decide) (by decide) (by decide)
    { product_id := "a", score := 1, reason := "content_similarity" }
    (by decide)

/-- Claim C10: when `income_level` is `None` or any string other than low,
medium or high, the budget-cap computation uses the medium base price of
2,000,000 before applying the regional multiplier, and always returns a
value (no error path exists). -/
theorem c10_income_default (u : UserProfile)
    (h : u.income_level.all
      (fun s => !(s == "low" || s == "medium" || s == "high")) = true) :
    get_max_price_for_user u = 2000000 * regional_multipliers u.region := by
  cases hin : u.income_level with
  | none =>
    simp [get_max_price_for_user, hin, pyOrStr, base_price_for]
  | some s =>
    rw [hin] at h
    have h1 : s ≠ "low" := by
      intro hs; rw [hs] at h; exact absurd h (by decide)
    have h2 : s ≠ "medium" := by
      intro hs; rw [hs] at h; exact absurd h (by decide)
    have h3 : s ≠ "high" := by
      intro hs; rw [hs] at h; exact absurd h (by decide)
    by_cases hs : s = ""
    · simp [get_max_price_for_user, hin, pyOrStr, hs, base_price_for]
    · simp [get_max_price_for_user, hin, pyOrStr, hs, base_price_for,
        h1, h2, h3]

/-- Witness: an unknown income string yields the medium cap times the
region's multiplier. -/
theorem c10_income_default_witness :
    get_max_price_for_user uU = 2000000 * regional_multipliers uU.region :=
  c10_income_default uU (by decide)

end
